import Mathlib

/-!
Verification of the orchestration pipeline in `app.py` (multi-agent proposal
generator).  The Python source is shallowly embedded: external calls (the
Tavily client, `requests.get`, `response.json()`, `json.dumps`, the language
model) are parameters of type `String → Except String α` etc., where
`Except.error m` models a raised exception whose `str(e)` is `m`; functions
that cannot raise are total Lean functions.  The file system is a partial map
from file names to contents.
-/

namespace MultiAgent

/-! ## The `Tools` class: the three search operations -/

/-- Embedding of `Tools.tavily_search` from `app.py` (lines 22-28): inside a `try` block it
runs `self.tavily_client.search(query=query)` (parameter `search`) and
serializes the result with `json.dumps(..., indent=2)` (parameter `dumps`);
any exception raised in the block is caught and converted to the string
`"Error performing search: " ++ str(e)`.  The Lean function is total: it never
raises to its caller. -/
def tavily_search {α : Type} (search : String → Except String α)
    (dumps : α → Except String String) (query : String) : String :=
  match (search query).bind dumps with
  | Except.ok s => s
  | Except.error e => "Error performing search: " ++ e

/-- The URL built by `Tools.search_kaggle` (line 34): the f-string
`f"https://www.kaggle.com/api/v1/search/datasets?search={query}"`, i.e. raw
interpolation of the query with no URL encoding. -/
def kaggleSearchUrl (query : String) : String :=
  "https://www.kaggle.com/api/v1/search/datasets?search=" ++ query

/-- Embedding of `Tools.search_kaggle` from `app.py` (lines 30-39): inside a `try` block it
performs `requests.get(url, headers=...)` (parameter `get`, receiving the URL
and the header list), decodes the body with `response.json()` (parameter
`respJson`) and reserializes it with `json.dumps(..., indent=2)` (parameter
`dumps`); any exception is caught and converted to
`"Error searching Kaggle: " ++ str(e)`.  Total: never raises. -/
def search_kaggle {α β : Type} (get : String → List (String × String) → Except String α)
    (respJson : α → Except String β) (dumps : β → Except String String)
    (kaggleApiToken : String) (query : String) : String :=
  match ((get (kaggleSearchUrl query)
      [("Authorization", "Bearer " ++ kaggleApiToken)]).bind respJson).bind dumps with
  | Except.ok s => s
  | Except.error e => "Error searching Kaggle: " ++ e

/-- The URL built by `Tools.search_huggingface` (line 45): the f-string
`f"https://huggingface.co/api/datasets?search={query}"`, raw interpolation of
the query with no URL encoding. -/
def huggingfaceSearchUrl (query : String) : String :=
  "https://huggingface.co/api/datasets?search=" ++ query

/-- Embedding of `Tools.search_huggingface` from `app.py` (lines 41-49): inside a `try`
block it performs `requests.get(url)` (parameter `get`), decodes with
`response.json()` (parameter `respJson`), reserializes with `json.dumps`
(parameter `dumps`); any exception is caught and converted to
`"Error searching HuggingFace: " ++ str(e)`.  Total: never raises. -/
def search_huggingface {α β : Type} (get : String → Except String α)
    (respJson : α → Except String β) (dumps : β → Except String String)
    (query : String) : String :=
  match ((get (huggingfaceSearchUrl query)).bind respJson).bind dumps with
  | Except.ok s => s
  | Except.error e => "Error searching HuggingFace: " ++ e

/-- C1 (counterexample): with an underlying Kaggle client that always raises
with message `"boom"`, `search_kaggle` does not return the string
`"Error performing search: boom"` that the claim prescribes (it returns
`"Error searching Kaggle: boom"`), so the claimed uniform error-string shape
is false for the Kaggle dataset search. -/
theorem searchKaggle_error_string_not_uniform :
    search_kaggle (fun _ _ => Except.error "boom")
      (Except.ok (ε := String) (α := String)) (Except.ok (ε := String)) "token" "census"
      ≠ "Error performing search: boom" := by
  decide

/-- C1 (amended): a stubbed underlying client that always raises with message
`m` never makes any of the three search operations raise (each is a total
`String`-valued function); each returns an error string embedding `m`, but the
three strings differ per operation: the web search returns
`"Error performing search: " ++ m`, the Kaggle dataset search returns
`"Error searching Kaggle: " ++ m`, and the HuggingFace dataset search returns
`"Error searching HuggingFace: " ++ m`. -/
theorem search_ops_return_error_strings {α β γ δ : Type}
    (dumpsT : α → Except String String)
    (respJsonK : β → Except String γ) (dumpsK : γ → Except String String)
    (respJsonH : β → Except String δ) (dumpsH : δ → Except String String)
    (token query m : String) :
    tavily_search (fun _ => Except.error m) dumpsT query
        = "Error performing search: " ++ m
      ∧ search_kaggle (fun _ _ => Except.error (ε := String) (α := β) m)
          respJsonK dumpsK token query
        = "Error searching Kaggle: " ++ m
      ∧ search_huggingface (fun _ => Except.error (ε := String) (α := β) m)
          respJsonH dumpsH query
        = "Error searching HuggingFace: " ++ m := by
  refine ⟨rfl, rfl, rfl⟩

/-- C9: both dataset-search operations pass to the HTTP client exactly the
literal concatenation of their endpoint and the raw query (no URL encoding).
The first two conjuncts observe the URL actually handed to the `get`
parameter by returning it through the error channel; the last two state that
the URL constructors are literal concatenation, so URL-significant characters
in the query (spaces, ampersands, hashes) flow into the request unescaped. -/
theorem dataset_search_urls_are_raw_concatenation (query token : String) :
    search_kaggle (fun url _ => Except.error url)
        (Except.ok (ε := String) (α := String)) (Except.ok (ε := String)) token query
      = "Error searching Kaggle: "
          ++ ("https://www.kaggle.com/api/v1/search/datasets?search=" ++ query)
    ∧ search_huggingface (fun url => Except.error url)
        (Except.ok (ε := String) (α := String)) (Except.ok (ε := String)) query
      = "Error searching HuggingFace: "
          ++ ("https://huggingface.co/api/datasets?search=" ++ query)
    ∧ kaggleSearchUrl query
        = "https://www.kaggle.com/api/v1/search/datasets?search=" ++ query
    ∧ huggingfaceSearchUrl query
        = "https://huggingface.co/api/datasets?search=" ++ query := by
  refine ⟨rfl, rfl, rfl, rfl⟩

/-! ## Data model: tools, agents, tasks, crew -/

/-- A `langchain.tools.Tool`: a named callable capability.  The bound methods
of `Tools` are total (they catch their own exceptions), so `func` is a total
function. -/
structure Tool where
  name : String
  description : String
  func : String → String

/-- The `Tools` instance handed to `AgentFactory` in `AIProposalSystem.__init__`:
its three bound methods, already closed over the underlying clients. -/
structure Tools where
  tavily_search : String → String
  search_kaggle : String → String
  search_huggingface : String → String

/-- A `crewai.Agent`: role, goal, backstory, optional tools, and the shared
language-model handle.  The handle is modelled as a function from the prompt
text to either a completion or a raised exception message. -/
structure Agent where
  role : String
  goal : String
  backstory : String
  tools : List Tool
  llm : String → Except String String

/-- A `crewai.Task`: a natural-language instruction bound to one agent. -/
structure Task where
  description : String
  agent : Agent

/-- The `crewai.Process` selector; the source always passes
`Process.sequential` (line 223). -/
inductive Process where
  | sequential
deriving DecidableEq

/-- A `crewai.Crew`: the agents, the ordered task list, and the process mode,
exactly the three arguments passed at lines 220-225. -/
structure Crew where
  agents : List Agent
  tasks : List Task
  process : Process

/-- Embedding of `AgentFactory` from `app.py` (lines 52-123). -/
structure AgentFactory where
  llm : String → Except String String
  tools : Tools

/-- Embedding of `AgentFactory.create_research_agent` (lines 59-74). -/
def AgentFactory.create_research_agent (f : AgentFactory) : Agent :=
  Agent.mk
    "Industry Research Specialist"
    "Conduct comprehensive industry and company research"
    "Expert in market research and industry analysis with \n            extensive experience in technology sector analysis."
    [Tool.mk "Web Search" "Search for company and industry information"
      f.tools.tavily_search]
    f.llm

/-- Embedding of `AgentFactory.create_market_standards_agent` (lines 76-91). -/
def AgentFactory.create_market_standards_agent (f : AgentFactory) : Agent :=
  Agent.mk
    "AI/ML Strategy Consultant"
    "Analyze market trends and generate relevant AI/ML use cases"
    "Senior AI consultant specializing in identifying and \n            evaluating AI/ML opportunities across industries."
    [Tool.mk "Web Search" "Search for AI/ML trends and use cases"
      f.tools.tavily_search]
    f.llm

/-- Embedding of `AgentFactory.create_resource_agent` (lines 93-113). -/
def AgentFactory.create_resource_agent (f : AgentFactory) : Agent :=
  Agent.mk
    "Technical Resource Specialist"
    "Identify and validate AI/ML resources and datasets"
    "Technical expert in AI/ML resources with deep knowledge \n            of available datasets, models, and implementations."
    [Tool.mk "Kaggle Search" "Search for datasets on Kaggle"
        f.tools.search_kaggle,
      Tool.mk "HuggingFace Search" "Search for models and datasets on HuggingFace"
        f.tools.search_huggingface]
    f.llm

/-- Embedding of `AgentFactory.create_proposal_agent` (lines 115-123): no tools. -/
def AgentFactory.create_proposal_agent (f : AgentFactory) : Agent :=
  Agent.mk
    "AI Solution Architect"
    "Create comprehensive AI implementation proposals"
    "Senior solution architect specializing in creating \n            detailed and actionable AI implementation plans."
    []
    f.llm

/-- Embedding of `TaskFactory.create_research_task` (lines 129-141): the instruction
f-string with the company name interpolated. -/
def TaskFactory.create_research_task (agent : Agent) (company_name : String) : Task :=
  Task.mk
    ("Thoroughly research " ++ company_name ++ " and their industry:\n            1. Industry classification and market position\n            2. Core products/services and target markets\n            3. Technology stack and digital maturity\n            4. Key competitors and their AI initiatives\n            5. Strategic focus areas and challenges\n\n            Provide a detailed JSON report covering all aspects.")
    agent

/-- Embedding of `TaskFactory.create_market_task` (lines 143-159). -/
def TaskFactory.create_market_task (agent : Agent) (company_name : String) : Task :=
  Task.mk
    ("Analyze AI/ML opportunities for " ++ company_name ++ ":\n            1. Current industry AI/ML trends\n            2. Generate 5 specific use cases with:\n               - Detailed description\n               - Expected benefits\n               - Required technologies\n               - Implementation complexity\n               - ROI estimation\n               - Priority level\n            3. Competitive analysis of AI adoption\n\n            Format as structured JSON with clear sections.")
    agent

/-- Embedding of `TaskFactory.create_resource_task` (lines 161-172): not parameterized by
the company. -/
def TaskFactory.create_resource_task (agent : Agent) : Task :=
  Task.mk
    "For each identified use case:\n            1. Find relevant datasets (Kaggle/HuggingFace)\n            2. Identify similar implementations\n            3. List required technologies\n            4. Estimate resource requirements\n\n            Create a comprehensive JSON report with links."
    agent

/-- Embedding of `TaskFactory.create_proposal_task` (lines 174-191). -/
def TaskFactory.create_proposal_task (agent : Agent) : Task :=
  Task.mk
    "Generate a detailed implementation proposal:\n            1. Executive Summary\n            2. Company & Industry Analysis\n            3. AI/ML Opportunity Assessment\n            4. Detailed Use Cases\n               - Implementation requirements\n               - Resource needs\n               - Timeline\n            5. Risk Analysis\n            6. ROI Projections\n            7. Next Steps\n\n            Format in professional Markdown with all resources linked."
    agent

/-! ## Sequential crew execution -/

/-- One executed stage, as observed: which agent role ran, the context text it
received, and the output it produced. -/
structure StageRecord where
  role : String
  context : String
  output : String
deriving DecidableEq

/-- Modelled from the spec: the prompt a task execution sends to the language
model.  The spec (section 6) says the request carries role/goal/persona/
instruction/context text; `crewai`'s exact template is external to this
repository, so the model joins those five pieces with newlines. -/
def stagePrompt (t : Task) (context : String) : String :=
  t.agent.role ++ "\n" ++ t.agent.goal ++ "\n" ++ t.agent.backstory ++ "\n"
    ++ t.description ++ "\n" ++ context

/-- Modelled from the spec: the sequential task loop inside `crewai`'s
`Crew.kickoff` with `Process.sequential`, which is external to this
repository.  Per the spec (sections 4.2, 5): tasks run strictly in list
order; step i+1 starts only after step i completes; each task receives the
concatenation of all prior outputs as context; outputs are appended in
execution order; an unrecovered task failure aborts the run and propagates.
Arguments: remaining tasks, accumulated context, the previous task's output,
and the log of stages executed so far; returns the final log together with
either the last task's output or the propagated exception message. -/
def runSequentialTasks : List Task → String → String → List StageRecord →
    List StageRecord × Except String String
  | [], _, last, log => (log, Except.ok last)
  | t :: ts, context, _, log =>
    match t.agent.llm (stagePrompt t context) with
    | Except.error e => (log, Except.error e)
    | Except.ok output =>
      runSequentialTasks ts (context ++ output) output
        (log ++ [StageRecord.mk t.agent.role context output])

/-- Modelled from the spec: `Crew.kickoff` (external to this repository) for
the sequential process — run the task list from empty context and return the
final task's output (or the propagated failure), together with the
observation log of executed stages. -/
def Crew.kickoff (c : Crew) : List StageRecord × Except String String :=
  runSequentialTasks c.tasks "" "" []

/-! ## Timestamps, the file system, and the orchestrator -/

/-- A wall-clock instant at second granularity, the fields
`datetime.now().strftime("%Y%m%d_%H%M%S")` reads. -/
structure DateTime where
  year : Nat
  month : Nat
  day : Nat
  hour : Nat
  minute : Nat
  second : Nat
deriving DecidableEq

/-- A zero-padded two-digit field (`%m`, `%d`, `%H`, `%M`, `%S`), as `strftime`
renders it for the in-range values `datetime` guarantees (< 100). -/
def two_digits (n : Nat) : String :=
  String.mk [Nat.digitChar (n / 10), Nat.digitChar (n % 10)]

/-- A zero-padded four-digit field (`%Y`), as `strftime` renders it for years
below 10000. -/
def four_digits (n : Nat) : String :=
  String.mk [Nat.digitChar (n / 1000 % 10), Nat.digitChar (n / 100 % 10),
    Nat.digitChar (n / 10 % 10), Nat.digitChar (n % 10)]

/-- Embedding of `datetime.strftime("%Y%m%d_%H%M%S")` (line 230). -/
def strftime_YmdHMS (t : DateTime) : String :=
  four_digits t.year ++ two_digits t.month ++ two_digits t.day ++ "_"
    ++ two_digits t.hour ++ two_digits t.minute ++ two_digits t.second

/-- The working directory: a partial map from file names to contents. -/
abbrev FS : Type := String → Option String

/-- Embedding of `open(filename, "w")` followed by `f.write(content)`: bind the name to the
content verbatim, overwriting any previous binding. -/
def fsWrite (fs : FS) (name content : String) : FS :=
  fun path => if path = name then some content else fs path

/-- Embedding of `AIProposalSystem.__init__` (lines 197-204): the shared language-model
handle and the `Tools` instance (both external behaviours are parameters of
the model); the agent factory is built from them. -/
structure AIProposalSystem where
  llm : String → Except String String
  tools : Tools

/-- The `self.agent_factory` field set in `AIProposalSystem.__init__`. -/
def AIProposalSystem.agent_factory (s : AIProposalSystem) : AgentFactory :=
  AgentFactory.mk s.llm s.tools

/-- The crew built in `AIProposalSystem.generate_proposal` (lines 206-225):
the four agents and the four tasks, in source order, sequential process. -/
def AIProposalSystem.crew (s : AIProposalSystem) (company_name : String) : Crew :=
  let research_agent := s.agent_factory.create_research_agent
  let market_agent := s.agent_factory.create_market_standards_agent
  let resource_agent := s.agent_factory.create_resource_agent
  let proposal_agent := s.agent_factory.create_proposal_agent
  let research_task := TaskFactory.create_research_task research_agent company_name
  let market_task := TaskFactory.create_market_task market_agent company_name
  let resource_task := TaskFactory.create_resource_task resource_agent
  let proposal_task := TaskFactory.create_proposal_task proposal_agent
  Crew.mk
    [research_agent, market_agent, resource_agent, proposal_agent]
    [research_task, market_task, resource_task, proposal_task]
    Process.sequential

/-- Embedding of `AIProposalSystem.generate_proposal` (lines 206-236): build the crew, run
`crew.kickoff()`, and — only if it returned — compute the timestamped
filename, write the result verbatim, and return the filename.  If the kickoff
raises, the exception propagates and the file system is untouched.  The
wall-clock instant (`datetime.now()`) and the file system are explicit
arguments; the stage log is returned as the observation trace. -/
def AIProposalSystem.generate_proposal (s : AIProposalSystem) (company_name : String)
    (now : DateTime) (fs : FS) : List StageRecord × Except String String × FS :=
  match (s.crew company_name).kickoff with
  | (log, Except.error e) => (log, Except.error e, fs)
  | (log, Except.ok result) =>
    let timestamp := strftime_YmdHMS now
    let filename := "ai_proposal_" ++ company_name ++ "_" ++ timestamp ++ ".md"
    (log, Except.ok filename, fsWrite fs filename result)

/-! ## Lemmas about the sequential loop -/

/-- Concatenation of the recorded outputs, in execution order. -/
def concatOutputs : List StageRecord → String
  | [] => ""
  | r :: rs => r.output ++ concatOutputs rs

/-- The stage log satisfies the context invariant: every recorded stage
received exactly the concatenation of the outputs of the stages recorded
before it. -/
def ContextOK (log : List StageRecord) : Prop :=
  ∀ i (h : i < log.length), (log.get ⟨i, h⟩).context = concatOutputs (log.take i)

theorem concatOutputs_append (a b : List StageRecord) :
    concatOutputs (a ++ b) = concatOutputs a ++ concatOutputs b := by
  induction a with
  | nil => simp [concatOutputs]
  | cons r rs ih => simp [concatOutputs, ih, String.append_assoc]

theorem take_append_le {α : Type} (l t : List α) (i : Nat) (h : i ≤ l.length) :
    (l ++ t).take i = l.take i := by
  induction l generalizing i with
  | nil =>
    have : i = 0 := Nat.le_zero.mp h
    simp [this]
  | cons x xs ih =>
    cases i with
    | zero => simp
    | succ j =>
      simp only [List.cons_append, List.take_succ_cons]
      rw [ih j (by simpa using h)]

theorem contextOK_append (log : List StageRecord) (r : StageRecord)
    (hlog : ContextOK log) (hr : r.context = concatOutputs log) :
    ContextOK (log ++ [r]) := by
  intro i h
  rcases Nat.lt_or_ge i log.length with hi | hi
  · have hget : (log ++ [r]).get ⟨i, h⟩ = log.get ⟨i, hi⟩ := by
      simp [List.get_eq_getElem, List.getElem_append_left hi]
    rw [hget, take_append_le log [r] i (Nat.le_of_lt hi)]
    exact hlog i hi
  · have hlen : i = log.length := by
      have := h
      simp only [List.length_append, List.length_cons, List.length_nil] at this
      omega
    subst hlen
    have hget : (log ++ [r]).get ⟨log.length, h⟩ = r := by
      simp [List.get_eq_getElem, List.getElem_append_right]
    rw [hget, List.take_left]
    exact hr

/-- The loop only ever appends to the log: stage records, once written, are
never mutated or removed. -/
theorem runSeq_extends (ts : List Task) (ctx last : String) (log : List StageRecord) :
    ∃ tail, (runSequentialTasks ts ctx last log).1 = log ++ tail := by
  induction ts generalizing ctx last log with
  | nil => exact ⟨[], by simp [runSequentialTasks]⟩
  | cons t ts ih =>
    cases h : t.agent.llm (stagePrompt t ctx) with
    | error e => exact ⟨[], by simp [runSequentialTasks, h]⟩
    | ok out =>
      obtain ⟨tail, htail⟩ :=
        ih (ctx ++ out) out (log ++ [StageRecord.mk t.agent.role ctx out])
      refine ⟨StageRecord.mk t.agent.role ctx out :: tail, ?_⟩
      simp [runSequentialTasks, h, htail]

/-- The roles recorded by the loop extend the initial log by an initial
segment of the remaining tasks' roles, in task-list order: no reordering, no
skipping. -/
theorem runSeq_roles (ts : List Task) (ctx last : String) (log : List StageRecord) :
    ∃ k, (runSequentialTasks ts ctx last log).1.map StageRecord.role
      = log.map StageRecord.role ++ (ts.map fun t => t.agent.role).take k := by
  induction ts generalizing ctx last log with
  | nil => exact ⟨0, by simp [runSequentialTasks]⟩
  | cons t ts ih =>
    cases h : t.agent.llm (stagePrompt t ctx) with
    | error e => exact ⟨0, by simp [runSequentialTasks, h]⟩
    | ok out =>
      obtain ⟨k, hk⟩ :=
        ih (ctx ++ out) out (log ++ [StageRecord.mk t.agent.role ctx out])
      refine ⟨k + 1, ?_⟩
      simp only [runSequentialTasks, h] at hk ⊢
      rw [hk]
      simp [List.take_succ_cons]

/-- When the loop returns successfully, every remaining task was executed, in
order. -/
theorem runSeq_roles_ok (ts : List Task) (ctx last : String) (log : List StageRecord)
    (r : String) (h : (runSequentialTasks ts ctx last log).2 = Except.ok r) :
    (runSequentialTasks ts ctx last log).1.map StageRecord.role
      = log.map StageRecord.role ++ (ts.map fun t => t.agent.role) := by
  induction ts generalizing ctx last log with
  | nil => simp [runSequentialTasks]
  | cons t ts ih =>
    cases hl : t.agent.llm (stagePrompt t ctx) with
    | error e =>
      rw [runSequentialTasks, hl] at h
      exact absurd h (by simp)
    | ok out =>
      rw [runSequentialTasks, hl] at h ⊢
      rw [ih (ctx ++ out) out (log ++ [StageRecord.mk t.agent.role ctx out]) h]
      simp

/-- The loop preserves the context invariant: starting from a log satisfying
it and a context equal to the concatenation of the logged outputs, every
record it appends again receives exactly the concatenation of all previously
recorded outputs. -/
theorem runSeq_context (ts : List Task) (ctx last : String) (log : List StageRecord)
    (hlog : ContextOK log) (hctx : ctx = concatOutputs log) :
    ContextOK (runSequentialTasks ts ctx last log).1 := by
  induction ts generalizing ctx last log with
  | nil => simpa [runSequentialTasks] using hlog
  | cons t ts ih =>
    cases h : t.agent.llm (stagePrompt t ctx) with
    | error e => simpa [runSequentialTasks, h] using hlog
    | ok out =>
      have hnext := ih (ctx ++ out) out (log ++ [StageRecord.mk t.agent.role ctx out])
        (contextOK_append log _ hlog hctx)
        (by rw [concatOutputs_append, hctx]; simp [concatOutputs])
      simpa [runSequentialTasks, h] using hnext

/-- Whatever the kickoff outcome, `generate_proposal` reports the kickoff's
stage log unchanged. -/
theorem generate_log (s : AIProposalSystem) (c : String) (now : DateTime) (fs : FS) :
    (s.generate_proposal c now fs).1 = ((s.crew c).kickoff).1 := by
  rcases h : (s.crew c).kickoff with ⟨log, res⟩
  cases res <;> simp [AIProposalSystem.generate_proposal, h]

/-! ## Concrete runs used as witnesses -/

/-- A `Tools` instance whose three bound methods echo the query (their
behaviour is irrelevant to the pipeline claims: the modelled kickoff consults
only the language model). -/
def stubTools : Tools := Tools.mk (fun q => q) (fun q => q) (fun q => q)

/-- A system whose model handle always completes with a fixed document. -/
def okSystem : AIProposalSystem :=
  AIProposalSystem.mk (fun _ => Except.ok "Final Proposal Text") stubTools

/-- A system whose model handle raises on every call. -/
def failingSystem : AIProposalSystem :=
  AIProposalSystem.mk (fun _ => Except.error "model down") stubTools

/-- An empty working directory. -/
def emptyFS : FS := fun _ => none

/-- A concrete clock instant. -/
def sampleTime : DateTime := DateTime.mk 2026 10 12 9 30 5

/-- The fixed role order of the four pipeline stages, as constructed by
`AIProposalSystem.generate_proposal`. -/
def stageRoles : List String :=
  ["Industry Research Specialist", "AI/ML Strategy Consultant",
    "Technical Resource Specialist", "AI Solution Architect"]

/-- The stage log of a run of `okSystem`. -/
def okLog : List StageRecord :=
  [StageRecord.mk "Industry Research Specialist" "" "Final Proposal Text",
    StageRecord.mk "AI/ML Strategy Consultant" "Final Proposal Text"
      "Final Proposal Text",
    StageRecord.mk "Technical Resource Specialist"
      "Final Proposal TextFinal Proposal Text" "Final Proposal Text",
    StageRecord.mk "AI Solution Architect"
      "Final Proposal TextFinal Proposal TextFinal Proposal Text"
      "Final Proposal Text"]

/-! ## Claims about the orchestrator -/

/-- C2: if the crew run fails (any stage raised an unrecovered exception),
`generate_proposal` aborts the whole run: the same exception propagates to
the caller as the run's outcome, and the file system is returned exactly as
it was — no output file is created, no partial deliverable is produced. -/
theorem generate_proposal_aborts_on_failure (s : AIProposalSystem) (c : String)
    (now : DateTime) (fs : FS) (log : List StageRecord) (e : String)
    (h : (s.crew c).kickoff = (log, Except.error e)) :
    s.generate_proposal c now fs = (log, Except.error e, fs) := by
  simp [AIProposalSystem.generate_proposal, h]

/-- C2 witness: a system whose model raises `"model down"` on the first stage
makes the whole run fail with that message, leaving the empty file system
untouched. -/
theorem generate_proposal_aborts_on_failure_witness :
    failingSystem.generate_proposal "Acme" sampleTime emptyFS
      = ([], Except.error "model down", emptyFS) :=
  generate_proposal_aborts_on_failure failingSystem "Acme" sampleTime emptyFS
    [] "model down" rfl

/-- C3: every run executes the stages in the fixed order research, market
analysis, resource discovery, proposal synthesis.  First conjunct: whatever
the model's behaviour, the executed stages (in execution order) are an
initial segment of that fixed role order — stage i+1 runs only after stage i
returned, never reordered, never skipped.  Second conjunct: a run that
returns a result executed exactly the four stages in that order. -/
theorem pipeline_stage_order (s : AIProposalSystem) (c : String)
    (now : DateTime) (fs : FS) :
    (∃ tail, (s.generate_proposal c now fs).1.map StageRecord.role ++ tail
        = stageRoles)
      ∧ ∀ r, (s.generate_proposal c now fs).2.1 = Except.ok r →
          (s.generate_proposal c now fs).1.map StageRecord.role = stageRoles := by
  have htasks : ((s.crew c).tasks.map fun t => t.agent.role) = stageRoles := rfl
  constructor
  · obtain ⟨k, hk⟩ := runSeq_roles ((s.crew c).tasks) "" "" []
    rw [generate_log]
    refine ⟨stageRoles.drop k, ?_⟩
    have : ((s.crew c).kickoff).1.map StageRecord.role = stageRoles.take k := by
      rw [show ((s.crew c).kickoff).1 = (runSequentialTasks ((s.crew c).tasks) "" "" []).1
        from rfl, hk, htasks]
      simp
    rw [this, List.take_append_drop]
  · intro r hr
    rcases hq : (s.crew c).kickoff with ⟨log, res⟩
    cases res with
    | error e =>
      rw [AIProposalSystem.generate_proposal] at hr
      rw [hq] at hr
      exact absurd hr (by simp)
    | ok r' =>
      have hrun : runSequentialTasks ((s.crew c).tasks) "" "" [] = (log, Except.ok r') := hq
      have := runSeq_roles_ok ((s.crew c).tasks) "" "" [] r' (by rw [hrun])
      rw [hrun, htasks] at this
      rw [generate_log, hq]
      simpa using this

/-- C3 witness: a run whose model always completes executes exactly the four
roles in order. -/
theorem pipeline_stage_order_witness :
    (okSystem.generate_proposal "Acme" sampleTime emptyFS).1.map StageRecord.role
      = stageRoles :=
  (pipeline_stage_order okSystem "Acme" sampleTime emptyFS).2
    "ai_proposal_Acme_20261012_093005.md" rfl

/-- C4: in every run, the stage executed at position i received as context
exactly the concatenation, in execution order, of the outputs of the stages
at positions 0..i-1 (first conjunct, over the run's recorded log); and the
loop is append-only — whatever log has been recorded is a prefix of every
later log, so outputs are never mutated after being recorded (second
conjunct). -/
theorem pipeline_context_accumulation (s : AIProposalSystem) (c : String)
    (now : DateTime) (fs : FS) :
    ContextOK (s.generate_proposal c now fs).1
      ∧ ∀ (ts : List Task) (ctx last : String) (log : List StageRecord),
          ∃ tail, (runSequentialTasks ts ctx last log).1 = log ++ tail := by
  constructor
  · rw [generate_log]
    exact runSeq_context ((s.crew c).tasks) "" "" []
      (fun i h => absurd h (by simp)) rfl
  · exact runSeq_extends

/-- C4 witness: in a concrete successful run, the second stage's recorded
context equals the concatenation of the outputs recorded before it. -/
theorem pipeline_context_accumulation_witness :
    ((okSystem.generate_proposal "Acme" sampleTime emptyFS).1.get
        ⟨1, by decide⟩).context
      = concatOutputs ((okSystem.generate_proposal "Acme" sampleTime emptyFS).1.take 1) :=
  (pipeline_context_accumulation okSystem "Acme" sampleTime emptyFS).1 1 (by decide)

/-- C5: when the crew run returns `result`, `generate_proposal` computes the
filename `ai_proposal_<company>_<YYYYMMDD_HHMMSS>.md` from the company name
and the current clock instant, writes `result` to it verbatim (overwriting
any existing binding of that name, whatever the prior file system held), and
returns exactly that path; reading the written path back yields exactly
`result`. -/
theorem generate_proposal_saves_result (s : AIProposalSystem) (c : String)
    (now : DateTime) (fs : FS) (log : List StageRecord) (result : String)
    (h : (s.crew c).kickoff = (log, Except.ok result)) :
    s.generate_proposal c now fs
        = (log, Except.ok ("ai_proposal_" ++ c ++ "_" ++ strftime_YmdHMS now ++ ".md"),
          fsWrite fs ("ai_proposal_" ++ c ++ "_" ++ strftime_YmdHMS now ++ ".md") result)
      ∧ fsWrite fs ("ai_proposal_" ++ c ++ "_" ++ strftime_YmdHMS now ++ ".md") result
          ("ai_proposal_" ++ c ++ "_" ++ strftime_YmdHMS now ++ ".md") = some result := by
  exact ⟨by simp [AIProposalSystem.generate_proposal, h], by simp [fsWrite]⟩

/-- C5 witness: the end-to-end scenario of the spec — company `"Acme"`, model
stubbed to end with `"Final Proposal Text"`: the produced file
`ai_proposal_Acme_20261012_093005.md` holds exactly `"Final Proposal Text"`. -/
theorem generate_proposal_saves_result_witness :
    (okSystem.generate_proposal "Acme" sampleTime emptyFS).2.2
        "ai_proposal_Acme_20261012_093005.md" = some "Final Proposal Text" := by
  have h := generate_proposal_saves_result okSystem "Acme" sampleTime emptyFS
    okLog "Final Proposal Text" rfl
  rw [h.1]
  exact h.2

/-! ## Injectivity of the timestamped filename -/

/-- Loose bounds on the clock fields, all guaranteed by `datetime` (which
keeps the year below 10000, months in 1..12, and so on). -/
def DateTime.Bounded (t : DateTime) : Prop :=
  t.year < 10000 ∧ t.month < 100 ∧ t.day < 100 ∧ t.hour < 100
    ∧ t.minute < 100 ∧ t.second < 100

instance (t : DateTime) : Decidable t.Bounded := by
  unfold DateTime.Bounded
  infer_instance

theorem data_mk (l : List Char) : (String.mk l).data = l := rfl

theorem digitChar_inj_aux :
    ∀ a, a < 10 → ∀ b, b < 10 → (Nat.digitChar a = Nat.digitChar b → a = b) := by
  decide

theorem digitChar_inj (a b : Nat) (ha : a < 10) (hb : b < 10)
    (h : Nat.digitChar a = Nat.digitChar b) : a = b :=
  digitChar_inj_aux a ha b hb h

theorem dateTime_ext (t u : DateTime) (h1 : t.year = u.year)
    (h2 : t.month = u.month) (h3 : t.day = u.day) (h4 : t.hour = u.hour)
    (h5 : t.minute = u.minute) (h6 : t.second = u.second) : t = u := by
  cases t
  cases u
  simp_all

theorem strftime_YmdHMS_inj (t u : DateTime) (ht : t.Bounded) (hu : u.Bounded)
    (h : strftime_YmdHMS t = strftime_YmdHMS u) : t = u := by
  obtain ⟨hty, htmo, htd, hth, htmi, hts⟩ := ht
  obtain ⟨huy, humo, hud, huh, humi, hus⟩ := hu
  have hd := congrArg String.data h
  simp only [strftime_YmdHMS, four_digits, two_digits, String.data_append, data_mk,
    List.cons_append, List.nil_append, List.cons.injEq, and_true, true_and] at hd
  obtain ⟨e1, e2, e3, e4, e5, e6, e7, e8, e9, e10, e11, e12, e13, e14⟩ := hd
  have y1 := digitChar_inj _ _ (by omega) (by omega) e1
  have y2 := digitChar_inj _ _ (by omega) (by omega) e2
  have y3 := digitChar_inj _ _ (by omega) (by omega) e3
  have y4 := digitChar_inj _ _ (by omega) (by omega) e4
  have m1 := digitChar_inj _ _ (by omega) (by omega) e5
  have m2 := digitChar_inj _ _ (by omega) (by omega) e6
  have d1 := digitChar_inj _ _ (by omega) (by omega) e7
  have d2 := digitChar_inj _ _ (by omega) (by omega) e8
  have h1 := digitChar_inj _ _ (by omega) (by omega) e9
  have h2 := digitChar_inj _ _ (by omega) (by omega) e10
  have i1 := digitChar_inj _ _ (by omega) (by omega) e11
  have i2 := digitChar_inj _ _ (by omega) (by omega) e12
  have s1 := digitChar_inj _ _ (by omega) (by omega) e13
  have s2 := digitChar_inj _ _ (by omega) (by omega) e14
  exact dateTime_ext t u (by omega) (by omega) (by omega) (by omega)
    (by omega) (by omega)

theorem strftime_YmdHMS_data_length (t : DateTime) :
    (strftime_YmdHMS t).data.length = 15 := by
  simp [strftime_YmdHMS, four_digits, two_digits, String.data_append, data_mk]

/-- C6: the filename computed at lines 230-231 is injective in the pair
(company, second-granularity timestamp): runs for the same company in
different seconds, and runs in the same second for different companies, get
distinct file paths. -/
theorem proposal_filenames_distinct (c c₁ c₂ : String) (t t₁ t₂ : DateTime)
    (hb₁ : t₁.Bounded) (hb₂ : t₂.Bounded) :
    (t₁ ≠ t₂ →
      "ai_proposal_" ++ c ++ "_" ++ strftime_YmdHMS t₁ ++ ".md"
        ≠ "ai_proposal_" ++ c ++ "_" ++ strftime_YmdHMS t₂ ++ ".md")
      ∧ (c₁ ≠ c₂ →
        "ai_proposal_" ++ c₁ ++ "_" ++ strftime_YmdHMS t ++ ".md"
          ≠ "ai_proposal_" ++ c₂ ++ "_" ++ strftime_YmdHMS t ++ ".md") := by
  constructor
  · intro hne heq
    apply hne
    have hd := congrArg String.data heq
    simp only [String.data_append, List.append_assoc] at hd
    have hd2 := List.append_inj_right hd rfl
    have hd3 := List.append_inj_right hd2 rfl
    have hd4 := List.append_inj_right hd3 rfl
    have hts : (strftime_YmdHMS t₁).data = (strftime_YmdHMS t₂).data :=
      (List.append_inj hd4 (by rw [strftime_YmdHMS_data_length,
        strftime_YmdHMS_data_length])).1
    exact strftime_YmdHMS_inj t₁ t₂ hb₁ hb₂ (String.ext hts)
  · intro hne heq
    apply hne
    have hd := congrArg String.data heq
    simp only [String.data_append, List.append_assoc] at hd
    have hd2 := List.append_inj_right hd rfl
    have hc : c₁.data = c₂.data := (List.append_inj' hd2 rfl).1
    exact String.ext hc

/-- C6 witness: one second apart, or two different companies in the same
second, the concrete file paths differ. -/
theorem proposal_filenames_distinct_witness :
    "ai_proposal_" ++ "Acme" ++ "_" ++ strftime_YmdHMS (DateTime.mk 2026 10 12 9 30 5) ++ ".md"
      ≠ "ai_proposal_" ++ "Acme" ++ "_" ++ strftime_YmdHMS (DateTime.mk 2026 10 12 9 30 6) ++ ".md" :=
  (proposal_filenames_distinct "Acme" "Acme" "Bcme"
      (DateTime.mk 2026 10 12 9 30 5) (DateTime.mk 2026 10 12 9 30 5)
      (DateTime.mk 2026 10 12 9 30 6) (by decide) (by decide)).1
    (by decide)

/-! ## The Streamlit handler (`main`, lines 240-351)

The handler is modelled as a pure function from the form inputs to the list
of observable effects it issues, in program order, together with the
resulting file system.  Streamlit's own semantics contributes one fact: a
button rendered with `disabled=True` cannot be clicked, so `st.button`
returns `True` only when the user presses it while it is enabled.  Purely
static page text (title, sidebar copy, metrics column) has no bearing on any
claim and is not recorded.  Network traffic can only arise from the external
handles owned by `AIProposalSystem` — i.e. downstream of the
`constructSystem` and `generateCall` events — so a trace without those events
is a run without network calls. -/

/-- An observable effect of the handler, in program order. -/
inductive UIEvent where
  | warning (msg : String)
  | setEnv (name value : String)
  | constructSystem
  | progressShown (pct : Nat)
  | statusText (msg : String)
  | generateCall (company : String)
  | renderMarkdown (content : String)
  | downloadOffered (filename content : String)
  | errorShown (msg : String)
deriving DecidableEq

/-- Embedding of `api_keys_valid` after the check at lines 259-261:
`all([openai_key, tavily_key, kaggle_key])` — an empty string is falsy. -/
def api_keys_valid (openai_key tavily_key kaggle_key : String) : Bool :=
  !(openai_key == "" || tavily_key == "" || kaggle_key == "")

/-- The `stages` list (lines 298-303). -/
def stages : List String :=
  ["Researching company and industry...",
    "Analyzing AI/ML opportunities...",
    "Collecting resources and datasets...",
    "Generating comprehensive proposal..."]

/-- The `for i, stage in enumerate(stages)` loop (lines 305-307): for each
stage, a status-label update followed by a progress-bar update to
`(i + 1) * 25`. -/
def progressLoopEvents : List UIEvent :=
  stages.enum.flatMap fun p =>
    [UIEvent.statusText p.2, UIEvent.progressShown ((p.1 + 1) * 25)]

/-- Predicate: `progressShown` and `statusText` are the progress-display events. -/
def isProgressEvent : UIEvent → Bool
  | UIEvent.progressShown _ => true
  | UIEvent.statusText _ => true
  | _ => false

/-- The body of `main` (lines 250-329) that reacts to the form state: the
credential warning, the guarded button, the empty-company-name check, the
environment-variable writes, the system construction, the progress loop, the
`generate_proposal` call, and the rendering or the catch-all error reports.
`attempt` is whether the user presses the button; the external model handle
and tools are passed through to the system exactly as `AIProposalSystem()`
would obtain them.  (The branch for a missing output file is unreachable:
the file was written by the successful run that returned its name.) -/
def mainHandler (llm : String → Except String String) (tools : Tools)
    (openai_key tavily_key kaggle_key company_name : String)
    (attempt : Bool) (now : DateTime) (fs : FS) : List UIEvent × FS :=
  let valid := api_keys_valid openai_key tavily_key kaggle_key
  let sidebar :=
    if valid then [] else [UIEvent.warning "Please provide all required API keys"]
  let clicked := attempt && valid
  if clicked then
    if company_name == "" then
      (sidebar ++ [UIEvent.errorShown "Please enter a company name"], fs)
    else
      let system := AIProposalSystem.mk llm tools
      let pre := sidebar
        ++ [UIEvent.setEnv "OPENAI_API_KEY" openai_key,
          UIEvent.setEnv "TAVILY_API_KEY" tavily_key,
          UIEvent.setEnv "KAGGLE_API_TOKEN" kaggle_key,
          UIEvent.constructSystem,
          UIEvent.progressShown 0]
        ++ progressLoopEvents
        ++ [UIEvent.generateCall company_name]
      match system.generate_proposal company_name now fs with
      | (_log, Except.error e, fs') =>
        (pre ++ [UIEvent.errorShown ("An error occurred: " ++ e),
          UIEvent.errorShown "Please check your API keys and try again"], fs')
      | (_log, Except.ok proposal_file, fs') =>
        match fs' proposal_file with
        | some content =>
          (pre ++ [UIEvent.renderMarkdown content,
            UIEvent.downloadOffered proposal_file content], fs')
        | none =>
          (pre ++ [UIEvent.errorShown "An error occurred: [Errno 2] No such file or directory",
            UIEvent.errorShown "Please check your API keys and try again"], fs')
  else
    (sidebar, fs)

/-- C7: if any of the three credential fields is empty, the validity flag is
false — so the trigger button is rendered disabled and cannot fire — and the
handler's whole observable behaviour is the credential warning: no
environment variable is set, the orchestrator is never constructed, no
generation call (hence no network call) happens, and the file system is
untouched, whatever the user attempts. -/
theorem missing_key_blocks_run (llm : String → Except String String) (tools : Tools)
    (openai_key tavily_key kaggle_key company_name : String) (attempt : Bool)
    (now : DateTime) (fs : FS)
    (h : openai_key = "" ∨ tavily_key = "" ∨ kaggle_key = "") :
    api_keys_valid openai_key tavily_key kaggle_key = false
      ∧ mainHandler llm tools openai_key tavily_key kaggle_key company_name
          attempt now fs
        = ([UIEvent.warning "Please provide all required API keys"], fs) := by
  have hv : api_keys_valid openai_key tavily_key kaggle_key = false := by
    rcases h with h | h | h <;> simp [api_keys_valid, h]
  refine ⟨hv, ?_⟩
  simp [mainHandler, hv]

/-- C7 witness: with an empty model-provider key, a pressed trigger produces
only the warning and leaves the file system alone. -/
theorem missing_key_blocks_run_witness :
    api_keys_valid "" "tvly-key" "kaggle-key" = false
      ∧ mainHandler (fun _ => Except.ok "Final Proposal Text") stubTools
          "" "tvly-key" "kaggle-key" "Acme" true sampleTime emptyFS
        = ([UIEvent.warning "Please provide all required API keys"], emptyFS) :=
  missing_key_blocks_run (fun _ => Except.ok "Final Proposal Text") stubTools
    "" "tvly-key" "kaggle-key" "Acme" true sampleTime emptyFS (Or.inl rfl)

/-- C8: with all three credentials filled and the trigger pressed but an
empty company name, the handler reports the error and returns before any
observable effect of a run: no environment variable is set, the orchestrator
is never constructed, no generation (hence no network) call is made, and no
file is written. -/
theorem empty_company_blocks_run (llm : String → Except String String) (tools : Tools)
    (openai_key tavily_key kaggle_key : String) (now : DateTime) (fs : FS)
    (ho : openai_key ≠ "") (ht : tavily_key ≠ "") (hk : kaggle_key ≠ "") :
    mainHandler llm tools openai_key tavily_key kaggle_key "" true now fs
      = ([UIEvent.errorShown "Please enter a company name"], fs) := by
  have hv : api_keys_valid openai_key tavily_key kaggle_key = true := by
    simp [api_keys_valid, ho, ht, hk]
  simp [mainHandler, hv]

/-- C8 witness: concrete filled keys, pressed trigger, empty company name. -/
theorem empty_company_blocks_run_witness :
    mainHandler (fun _ => Except.ok "Final Proposal Text") stubTools
        "sk-key" "tvly-key" "kaggle-key" "" true sampleTime emptyFS
      = ([UIEvent.errorShown "Please enter a company name"], emptyFS) :=
  empty_company_blocks_run (fun _ => Except.ok "Final Proposal Text") stubTools
    "sk-key" "tvly-key" "kaggle-key" sampleTime emptyFS
    (by decide) (by decide) (by decide)

/-- C10: in every triggered run, the first fourteen effects are fixed: the
three environment writes, the system construction, the progress bar at 0,
then the four status labels each followed by its progress update
(25, 50, 75, 100), and only then the call into proposal generation — and no
progress or status update ever occurs after that call.  The displayed
progress therefore never reflects which stage is executing. -/
theorem progress_updates_precede_generation (llm : String → Except String String)
    (tools : Tools) (openai_key tavily_key kaggle_key company_name : String)
    (now : DateTime) (fs : FS)
    (hv : api_keys_valid openai_key tavily_key kaggle_key = true)
    (hc : company_name ≠ "") :
    ((mainHandler llm tools openai_key tavily_key kaggle_key company_name
          true now fs).1.take 14
        = [UIEvent.setEnv "OPENAI_API_KEY" openai_key,
          UIEvent.setEnv "TAVILY_API_KEY" tavily_key,
          UIEvent.setEnv "KAGGLE_API_TOKEN" kaggle_key,
          UIEvent.constructSystem,
          UIEvent.progressShown 0,
          UIEvent.statusText "Researching company and industry...",
          UIEvent.progressShown 25,
          UIEvent.statusText "Analyzing AI/ML opportunities...",
          UIEvent.progressShown 50,
          UIEvent.statusText "Collecting resources and datasets...",
          UIEvent.progressShown 75,
          UIEvent.statusText "Generating comprehensive proposal...",
          UIEvent.progressShown 100,
          UIEvent.generateCall company_name])
      ∧ ((mainHandler llm tools openai_key tavily_key kaggle_key company_name
            true now fs).1.drop 14).all (fun e => !(isProgressEvent e)) = true := by
  have hcb : (company_name == "") = false := by
    simp [hc]
  rcases hgen : (AIProposalSystem.mk llm tools).generate_proposal company_name now fs
    with ⟨log, res, fs'⟩
  cases res with
  | error e =>
    constructor <;>
      simp [mainHandler, hv, hcb, hgen, progressLoopEvents, stages, List.enum,
        List.enumFrom, isProgressEvent]
  | ok proposal_file =>
    cases hread : fs' proposal_file with
    | none =>
      constructor <;>
        simp [mainHandler, hv, hcb, hgen, hread, progressLoopEvents, stages,
          List.enum, List.enumFrom, isProgressEvent]
    | some content =>
      constructor <;>
        simp [mainHandler, hv, hcb, hgen, hread, progressLoopEvents, stages,
          List.enum, List.enumFrom, isProgressEvent]

/-- C10 witness: a concrete successful triggered run has exactly that fixed
fourteen-step prelude and no later progress update. -/
theorem progress_updates_precede_generation_witness :
    ((mainHandler (fun _ => Except.ok "Final Proposal Text") stubTools
          "sk-key" "tvly-key" "kaggle-key" "Acme" true sampleTime emptyFS).1.take 14
        = [UIEvent.setEnv "OPENAI_API_KEY" "sk-key",
          UIEvent.setEnv "TAVILY_API_KEY" "tvly-key",
          UIEvent.setEnv "KAGGLE_API_TOKEN" "kaggle-key",
          UIEvent.constructSystem,
          UIEvent.progressShown 0,
          UIEvent.statusText "Researching company and industry...",
          UIEvent.progressShown 25,
          UIEvent.statusText "Analyzing AI/ML opportunities...",
          UIEvent.progressShown 50,
          UIEvent.statusText "Collecting resources and datasets...",
          UIEvent.progressShown 75,
          UIEvent.statusText "Generating comprehensive proposal...",
          UIEvent.progressShown 100,
          UIEvent.generateCall "Acme"])
      ∧ ((mainHandler (fun _ => Except.ok "Final Proposal Text") stubTools
            "sk-key" "tvly-key" "kaggle-key" "Acme" true sampleTime emptyFS).1.drop 14).all
          (fun e => !(isProgressEvent e)) = true :=
  progress_updates_precede_generation (fun _ => Except.ok "Final Proposal Text")
    stubTools "sk-key" "tvly-key" "kaggle-key" "Acme" sampleTime emptyFS
    (by decide) (by decide)

end MultiAgent
